import Mathlib

/-!
A shallow embedding of the parking / task-pool core of the Regparkovka
Telegram bot (src/bot.py, src/services.py, src/models.py, src/config.py),
together with theorems settling the frozen claims about that core.

Modelling conventions:
* The database state is a `DB` record of lists of rows (`Parking`, `Task`,
  `QueueEntry`), mirroring the SQLAlchemy tables in models.py.
* All timestamps are absolute minutes on the single injected clock; every
  handler receives the current time `now` explicitly.
* Each chat handler in bot.py is embedded as a pure state transformer
  `DB → ... → Result × DB`.  Role and shift guard clauses that only consult
  the users table (who is allowed to press a button) are not modelled: they
  never touch the parking/task/queue state, and any role is grantable through
  the role-request flow, so they do not restrict which states are reachable.
* SQL queries `.first()` are embedded as `List.find?` (row order), and
  `order_by(...).first()` as a fold keeping the first row that is optimal for
  the requested ordering, which is what SQLite returns for a stable scan.
-/

namespace Regparkovka

/-- models.TaskStatus: the status values a `Task` may hold. -/
inductive TaskStatus where
  | PENDING
  | IN_PROGRESS
  | COMPLETED
  | STUCK
  | CANCELLED
deriving DecidableEq, Repr

/-- The string statuses of models.ParkingQueue
    ("waiting, notified, assigned, cancelled"). -/
inductive QueueStatus where
  | waiting
  | notified
  | assigned
  | cancelled
deriving DecidableEq, Repr

/-- models.Parking: one vehicle occupying one parking spot (an occupancy).
    `vehicle_type` is omitted: it is the string image of `is_hitch`. -/
structure Parking where
  id : Nat
  user_id : Nat
  vehicle_number : String
  spot_number : Nat
  arrival_time : Nat
  departure_time : Option Nat
  is_hitch : Bool
  gate_number : Option Nat
deriving DecidableEq, Repr

/-- models.Task: a gate-assignment task for a parked vehicle. -/
structure Task where
  id : Nat
  parking_id : Nat
  driver_id : Option Nat
  operator_id : Nat
  gate_number : Nat
  status : TaskStatus
  priority : Int
  created_at : Nat
  started_at : Option Nat
  completed_at : Option Nat
  is_stuck : Bool
  stuck_reason : Option String
  assigned_driver_id : Option Nat
  is_in_pool : Bool
deriving DecidableEq, Repr

/-- models.ParkingQueue: one entry of the arrival queue. -/
structure QueueEntry where
  id : Nat
  user_id : Nat
  vehicle_number : String
  is_hitch : Bool
  created_at : Nat
  notified_at : Option Nat
  status : QueueStatus
  spot_number : Option Nat
deriving DecidableEq, Repr

/-- The whole persistent state: the three tables the core mutates. -/
structure DB where
  parkings : List Parking
  tasks : List Task
  queue : List QueueEntry
deriving DecidableEq, Repr

def emptyDB : DB := ⟨[], [], []⟩

/-- config.Config.PARKING_SPOTS -/
def PARKING_SPOTS : Nat := 50

/-- Threshold of the unclaimed-pool sweep (15 minutes, bot.py 5658). -/
def POOL_WAIT_MINUTES : Nat := 15

/-- Threshold of the in-progress timeout sweep (30 minutes, bot.py 5705). -/
def IN_PROGRESS_TIMEOUT_MINUTES : Nat := 30

/-- `db.query(Parking).filter(Parking.id == pid).first()` -/
def findParking (db : DB) (pid : Nat) : Option Parking :=
  db.parkings.find? (fun p => p.id == pid)

/-- `db.query(Task).filter(Task.id == tid).first()` -/
def findTask (db : DB) (tid : Nat) : Option Task :=
  db.tasks.find? (fun t => t.id == tid)

/-- In-place mutation of the parking row with id `pid` (SQLAlchemy object
    mutation followed by commit). -/
def updateParking (db : DB) (pid : Nat) (f : Parking → Parking) : DB :=
  { db with parkings := db.parkings.map (fun p => if p.id == pid then f p else p) }

/-- In-place mutation of the task row with id `tid`. -/
def updateTask (db : DB) (tid : Nat) (f : Task → Task) : DB :=
  { db with tasks := db.tasks.map (fun t => if t.id == tid then f t else t) }

/-- In-place mutation of the queue row with id `qid`. -/
def updateQueueEntry (db : DB) (qid : Nat) (f : QueueEntry → QueueEntry) : DB :=
  { db with queue := db.queue.map (fun e => if e.id == qid then f e else e) }

/-- Fresh autoincrement primary key for a new parking row. -/
def nextParkingId (db : DB) : Nat := (db.parkings.map Parking.id).foldl max 0 + 1

/-- Fresh autoincrement primary key for a new task row. -/
def nextTaskId (db : DB) : Nat := (db.tasks.map Task.id).foldl max 0 + 1

/-- Fresh autoincrement primary key for a new queue row. -/
def nextQueueId (db : DB) : Nat := (db.queue.map QueueEntry.id).foldl max 0 + 1

/-- The active occupancy of the caller:
    `Parking.user_id == uid, Parking.departure_time == None` (.first()). -/
def hasActiveParking (db : DB) (uid : Nat) : Option Parking :=
  db.parkings.find? (fun p => p.user_id == uid && p.departure_time.isNone)

/-- The live queue entry of the caller:
    `ParkingQueue.status.in_(["waiting", "notified"])` (.first()). -/
def activeQueueEntry (db : DB) (uid : Nat) : Option QueueEntry :=
  db.queue.find? (fun e => e.user_id == uid &&
    (e.status == QueueStatus.waiting || e.status == QueueStatus.notified))

/-- The active task of an occupancy:
    `Task.parking_id == pid, Task.status.in_(["PENDING", "IN_PROGRESS"])`. -/
def activeTaskFor (db : DB) (pid : Nat) : Option Task :=
  db.tasks.find? (fun t => t.parking_id == pid &&
    (t.status == TaskStatus.PENDING || t.status == TaskStatus.IN_PROGRESS))

/-- The `for spot_num in range(1, total_spots + 1)` scan of
    services.get_free_parking_spot, with explicit fuel. -/
def firstFree (occupied : List Nat) : Nat → Nat → Option Nat
  | 0, _ => none
  | fuel + 1, n => if occupied.contains n then firstFree occupied fuel (n + 1) else some n

/-- `occupied_numbers` of services.get_free_parking_spot: the set (modelled as
    a duplicate-free list) of spot numbers of occupancies with
    `departure_time == None`. -/
def occupiedSpots (db : DB) : List Nat :=
  ((db.parkings.filter (fun p => p.departure_time.isNone)).map Parking.spot_number).dedup

/-- services.get_free_parking_spot: `None` when at least `PARKING_SPOTS`
    distinct numbers are taken, otherwise the first number in
    `1..PARKING_SPOTS` not in the set.  The queue is not consulted. -/
def get_free_parking_spot (db : DB) : Option Nat :=
  if PARKING_SPOTS ≤ (occupiedSpots db).length then none
  else firstFree (occupiedSpots db) PARKING_SPOTS 1

/-- services.add_to_parking_queue: insert a fresh `waiting` entry. -/
def add_to_parking_queue (db : DB) (uid : Nat) (vn : String) (hitch : Bool) (now : Nat) : DB :=
  { db with queue := db.queue ++
      [⟨nextQueueId db, uid, vn, hitch, now, none, QueueStatus.waiting, none⟩] }

/-- Left-to-right scan keeping the first row that is optimal for a strict
    preference `better` (`better b x` reads: `x` strictly precedes `b`).
    This is how `order_by(...).first()` is embedded. -/
def pickBest {α : Type} (better : α → α → Prop) [∀ a b, Decidable (better a b)] :
    Option α → List α → Option α
  | acc, [] => acc
  | none, x :: xs => pickBest better (some x) xs
  | some b, x :: xs => pickBest better (if better b x then some x else some b) xs

/-- `ParkingQueue.status == "waiting"` ordered by `created_at` ascending,
    `.first()`: the first row holding the minimal `created_at`. -/
def earliestWaiting (q : List QueueEntry) : Option QueueEntry :=
  pickBest (fun b e => e.created_at < b.created_at) none
    (q.filter (fun e => e.status == QueueStatus.waiting))

/-- services.process_parking_departure: notify the earliest waiting entry of a
    freed spot (status := notified, notified_at := now, spot_number := spot).
    No check against already-notified entries is performed.  Returns the id of
    the notified entry, if any. -/
def process_parking_departure (db : DB) (spot : Nat) (now : Nat) : Option Nat × DB :=
  match earliestWaiting db.queue with
  | none => (none, db)
  | some e =>
      (some e.id,
       updateQueueEntry db e.id (fun q =>
         { q with status := QueueStatus.notified, notified_at := some now,
                  spot_number := some spot }))

inductive ArrivalResult where
  | alreadyParked (spot : Nat)
  | alreadyQueued
  | parked (spot : Nat)
  | queued
deriving DecidableEq, Repr

/-- bot.process_arrival (guards, bot.py 706-759) composed with
    bot.process_vehicle_type (allocate-or-enqueue, bot.py 790-858):
    a registered driver reporting arrival with a valid vehicle number.
    A caller already parked, or already holding a waiting/notified queue
    entry, is rejected with no state change. -/
def process_arrival_flow (db : DB) (uid : Nat) (vn : String) (hitch : Bool) (now : Nat) :
    ArrivalResult × DB :=
  match hasActiveParking db uid with
  | some p => (ArrivalResult.alreadyParked p.spot_number, db)
  | none =>
    match activeQueueEntry db uid with
    | some _ => (ArrivalResult.alreadyQueued, db)
    | none =>
      match get_free_parking_spot db with
      | some s =>
          (ArrivalResult.parked s,
           { db with parkings := db.parkings ++
              [⟨nextParkingId db, uid, vn, s, now, none, hitch, none⟩] })
      | none => (ArrivalResult.queued, add_to_parking_queue db uid vn hitch now)

inductive DepartureResult where
  | notParked
  | activeTask (tid : Nat)
  | departed (spot : Nat)
deriving DecidableEq, Repr

/-- bot.process_departure (bot.py 860-914): vehicle departure.  Fails when the
    caller has no active occupancy or when that occupancy has a task in
    PENDING/IN_PROGRESS; otherwise sets `departure_time` and runs queue
    promotion for the freed spot. -/
def process_departure (db : DB) (uid : Nat) (now : Nat) : DepartureResult × DB :=
  match hasActiveParking db uid with
  | none => (DepartureResult.notParked, db)
  | some p =>
    match activeTaskFor db p.id with
    | some t => (DepartureResult.activeTask t.id, db)
    | none =>
      let db1 := updateParking db p.id (fun q => { q with departure_time := some now })
      (DepartureResult.departed p.spot_number,
       (process_parking_departure db1 p.spot_number now).2)

/-- bot.process_deb_departure_input (bot.py 5407-5473): an inspection employee
    registers a departure by vehicle number.  No active-task check and no
    queue promotion. -/
def process_deb_departure_input (db : DB) (vn : String) (now : Nat) : Bool × DB :=
  match db.parkings.find? (fun p => p.vehicle_number == vn && p.departure_time.isNone) with
  | none => (false, db)
  | some p => (true, updateParking db p.id (fun q => { q with departure_time := some now }))

/-- The two buildings selectable before gate assignment. -/
inductive ABK where
  | ABK1
  | ABK2
deriving DecidableEq, Repr

/-- Gate-range validation of bot.process_gate_assignment (bot.py 2852-2878):
    ABK-1 allows 1-59 and 66-83, ABK-2 allows 1-10. -/
def is_valid_gate (abk : ABK) (gate : Nat) : Bool :=
  match abk with
  | ABK.ABK1 => (decide (1 ≤ gate) && decide (gate ≤ 59)) ||
                (decide (66 ≤ gate) && decide (gate ≤ 83))
  | ABK.ABK2 => decide (1 ≤ gate) && decide (gate ≤ 10)

inductive CreateTaskResult where
  | invalidGate
  | parkingNotFound
  | duplicateActive (tid : Nat)
  | alreadyDeparted
  | created (tid : Nat)
deriving DecidableEq, Repr

/-- bot.process_gate_assignment (bot.py 2828-3018): an operator creates a task.
    Checks, in order: the gate number is positive and in range for the chosen
    building; the parking row exists; the occupancy has no task in
    PENDING/IN_PROGRESS; the vehicle has not departed.  The created task is
    PENDING with priority 0; it enters the pool exactly when the vehicle is
    transfer-capable, otherwise it is directly assigned to the vehicle owner. -/
def process_gate_assignment (db : DB) (pid oid gate : Nat) (abk : ABK) (now : Nat) :
    CreateTaskResult × DB :=
  if gate == 0 || !(is_valid_gate abk gate) then (CreateTaskResult.invalidGate, db)
  else
    match findParking db pid with
    | none => (CreateTaskResult.parkingNotFound, db)
    | some p =>
      match activeTaskFor db pid with
      | some t => (CreateTaskResult.duplicateActive t.id, db)
      | none =>
        if p.departure_time.isSome then (CreateTaskResult.alreadyDeparted, db)
        else
          let tid := nextTaskId db
          (CreateTaskResult.created tid,
           { db with tasks := db.tasks ++
             [{ id := tid, parking_id := p.id, driver_id := none, operator_id := oid,
                gate_number := gate, status := TaskStatus.PENDING, priority := 0,
                created_at := now, started_at := none, completed_at := none,
                is_stuck := false, stuck_reason := none,
                assigned_driver_id := if p.is_hitch then none else some p.user_id,
                is_in_pool := p.is_hitch }] })

/-- Pool eligibility of bot.process_take_task / services.get_task_from_pool:
    `Task.status == "PENDING", Task.is_in_pool == True, Parking.is_hitch ==
    True, Parking.departure_time == None, Task.driver_id == None` (with the
    join `Task.parking_id == Parking.id`). -/
def poolEligible (db : DB) (t : Task) : Bool :=
  t.status == TaskStatus.PENDING && t.is_in_pool && t.driver_id == none &&
  (match findParking db t.parking_id with
   | some p => p.is_hitch && p.departure_time.isNone
   | none => false)

/-- `b` precedes `a` in the ordering `priority DESC, created_at ASC`. -/
def BetterTask (a b : Task) : Prop :=
  a.priority < b.priority ∨ (b.priority = a.priority ∧ b.created_at < a.created_at)

instance (a b : Task) : Decidable (BetterTask a b) :=
  inferInstanceAs (Decidable (_ ∨ _))

/-- services.get_task_from_pool / the pool query of bot.process_take_task:
    the first row (in table order) optimal for
    `order_by(priority.desc(), created_at.asc())` among eligible tasks. -/
def selectPoolTask (db : DB) : Option Task :=
  pickBest BetterTask none (db.tasks.filter (poolEligible db))

/-- The stuck-task auto-release at the head of bot.process_take_task
    (bot.py 1823-1845): a STUCK task attributed to the caller is reset to
    PENDING, unassigned, returned to the pool with priority + 5. -/
def releaseStuckOf (db : DB) (did : Nat) : DB :=
  match db.tasks.find? (fun t => t.driver_id == some did && t.status == TaskStatus.STUCK) with
  | none => db
  | some t => updateTask db t.id (fun u =>
      { u with driver_id := none, status := TaskStatus.PENDING, is_in_pool := true,
               priority := u.priority + 5 })

inductive TakeTaskResult where
  | hasActive (tid : Nat)
  | noTask
  | assigned (tid : Nat)
deriving DecidableEq, Repr

/-- bot.process_take_task (bot.py 1804-1933): claim a task from the pool.
    First the STUCK task of the caller, if any, is auto-released; then the claim is
    refused if the caller already has an IN_PROGRESS task; then the best pool
    task is selected and assigned (IN_PROGRESS, started_at := now). -/
def process_take_task (db : DB) (did : Nat) (now : Nat) : TakeTaskResult × DB :=
  let db1 := releaseStuckOf db did
  match db1.tasks.find? (fun t => t.driver_id == some did &&
      t.status == TaskStatus.IN_PROGRESS) with
  | some t => (TakeTaskResult.hasActive t.id, db1)
  | none =>
    match selectPoolTask db1 with
    | none => (TakeTaskResult.noTask, db1)
    | some t =>
        (TakeTaskResult.assigned t.id,
         updateTask db1 t.id (fun u =>
           { u with driver_id := some did, status := TaskStatus.IN_PROGRESS,
                    started_at := some now, is_stuck := false, stuck_reason := none }))

inductive OpResult where
  | notFound
  | ok
deriving DecidableEq, Repr

/-- bot.process_task_complete (bot.py 2460-2495): the operator-side completion
    button.  No status precondition: the found task is set COMPLETED with
    `completed_at := now`, and its parking row gets `departure_time := now`
    and the reached gate number.  The queue is not touched. -/
def process_task_complete (db : DB) (tid : Nat) (now : Nat) : OpResult × DB :=
  match findTask db tid with
  | none => (OpResult.notFound, db)
  | some t =>
    let db1 := updateTask db tid (fun u =>
      { u with status := TaskStatus.COMPLETED, completed_at := some now })
    let db2 :=
      match findParking db1 t.parking_id with
      | some p => updateParking db1 p.id (fun q =>
          { q with departure_time := some now, gate_number := some t.gate_number })
      | none => db1
    (OpResult.ok, db2)

/-- bot.process_gate_completed (bot.py 1054-1129): the direct-driver completion
    button.  No status precondition; releases the active parking row OF THE CALLER
    (not that of the task), when one exists.  The queue is not touched. -/
def process_gate_completed (db : DB) (uid tid : Nat) (now : Nat) : OpResult × DB :=
  match findTask db tid with
  | none => (OpResult.notFound, db)
  | some t =>
    let ap := hasActiveParking db uid
    let db1 := updateTask db tid (fun u =>
      { u with status := TaskStatus.COMPLETED, completed_at := some now })
    let db2 :=
      match ap with
      | some p => updateParking db1 p.id (fun q =>
          { q with departure_time := some now, gate_number := some t.gate_number })
      | none => db1
    (OpResult.ok, db2)

/-- bot.process_transfer_gate_completed (bot.py 1600-1663): the transfer-driver
    completion button.  No status precondition; sets the task COMPLETED and
    releases the parking row of the task.  The queue is not touched. -/
def process_transfer_gate_completed (db : DB) (tid : Nat) (now : Nat) : OpResult × DB :=
  match findTask db tid with
  | none => (OpResult.notFound, db)
  | some t =>
    let db1 := updateTask db tid (fun u =>
      { u with status := TaskStatus.COMPLETED, completed_at := some now })
    let db2 :=
      match findParking db1 t.parking_id with
      | some p => updateParking db1 p.id (fun q =>
          { q with departure_time := some now, gate_number := some t.gate_number })
      | none => db1
    (OpResult.ok, db2)

/-- The stuck reason written by both gate-occupied handlers. -/
def gateOccupiedReason (gate : Nat) : String :=
  "Ворота #" ++ toString gate ++ " заняты другим ТС"

/-- The task mutation of bot.process_gate_occupied: STUCK with the
    gate-occupied reason; for a transfer-capable vehicle also back into the
    pool with priority + 10.  `driver_id` is NOT cleared. -/
def gateOccupiedStep (hitch : Bool) (gate : Nat) (u : Task) : Task :=
  let u1 := { u with status := TaskStatus.STUCK, is_stuck := true,
                     stuck_reason := some (gateOccupiedReason gate) }
  if hitch then { u1 with is_in_pool := true, priority := u1.priority + 10 } else u1

/-- bot.process_gate_occupied (bot.py 1132-1248): the direct-driver
    gate-occupied button.  No status precondition.  Sets STUCK with the
    gate-occupied reason; for a transfer-capable vehicle the task re-enters
    the pool with priority + 10.  The assignee (`driver_id`) is NOT cleared. -/
def process_gate_occupied (db : DB) (tid gate : Nat) : OpResult × DB :=
  match findTask db tid with
  | none => (OpResult.notFound, db)
  | some t =>
    let hitch :=
      match findParking db t.parking_id with
      | some p => p.is_hitch
      | none => false
    (OpResult.ok, updateTask db tid (gateOccupiedStep hitch gate))

/-- The task mutation of bot.process_transfer_gate_occupied: STUCK with the
    gate-occupied reason, assignee cleared, back into the pool,
    priority + 15. -/
def transferGateOccupiedStep (gate : Nat) (u : Task) : Task :=
  { u with status := TaskStatus.STUCK, is_stuck := true,
           stuck_reason := some (gateOccupiedReason gate),
           driver_id := none, is_in_pool := true, priority := u.priority + 15 }

/-- bot.process_transfer_gate_occupied (bot.py 1354-1444): the transfer-driver
    gate-occupied button.  No status precondition.  Sets STUCK with the
    gate-occupied reason, clears the assignee, and unconditionally returns the
    task to the pool with priority + 15. -/
def process_transfer_gate_occupied (db : DB) (tid gate : Nat) : OpResult × DB :=
  match findTask db tid with
  | none => (OpResult.notFound, db)
  | some _ =>
    (OpResult.ok, updateTask db tid (transferGateOccupiedStep gate))

/-- bot.process_restart_all_hitch_stuck (bot.py 4307-4349): every STUCK task of
    a still-parked transfer-capable vehicle is reset to PENDING, unassigned,
    returned to the pool with priority + 3.  No duplicate-active-task check. -/
def process_restart_all_hitch_stuck (db : DB) : DB :=
  { db with tasks := db.tasks.map (fun t =>
      let hitchActive :=
        match findParking db t.parking_id with
        | some p => p.is_hitch && p.departure_time.isNone
        | none => false
      if t.status == TaskStatus.STUCK && hitchActive then
        { t with status := TaskStatus.PENDING, driver_id := none, is_stuck := false,
                 stuck_reason := none, is_in_pool := true, priority := t.priority + 3 }
      else t) }

/-- Per-task effect of sweep 1 of bot.check_and_notify_unassigned_tasks
    (bot.py 5657-5702): a PENDING pool task created at least 15 minutes ago
    WHOSE VEHICLE IS STILL PARKED (join on `Parking.departure_time == None`)
    gets priority + 1; status is unchanged; any other task is untouched. -/
def sweep1Step (db : DB) (now : Nat) (t : Task) : Task :=
  let parked :=
    match findParking db t.parking_id with
    | some p => p.departure_time.isNone
    | none => false
  if t.status == TaskStatus.PENDING && t.is_in_pool &&
     decide (t.created_at + POOL_WAIT_MINUTES ≤ now) && parked
  then { t with priority := t.priority + 1 } else t

def reconcilerSweep1 (db : DB) (now : Nat) : DB :=
  { db with tasks := db.tasks.map (sweep1Step db now) }

/-- The stuck reason written by the in-progress timeout sweep. -/
def timeoutReason (minutes : Nat) : String :=
  "Автоматический таймаут (" ++ toString minutes ++ " мин)"

/-- Per-task effect of sweep 2 of bot.check_and_notify_unassigned_tasks
    (bot.py 5704-5754): an IN_PROGRESS task started at least 30 minutes ago
    becomes STUCK with a timeout reason; when the vehicle is transfer-capable
    the assignee is cleared and the task re-enters the pool with
    priority + 10. -/
def sweep2Step (db : DB) (now : Nat) (t : Task) : Task :=
  let timedOut :=
    match t.started_at with
    | some st => decide (st + IN_PROGRESS_TIMEOUT_MINUTES ≤ now)
    | none => false
  if t.status == TaskStatus.IN_PROGRESS && timedOut then
    let t1 := { t with status := TaskStatus.STUCK, is_stuck := true,
                       stuck_reason := some (timeoutReason (now - t.started_at.getD 0)) }
    let hitch :=
      match findParking db t.parking_id with
      | some p => p.is_hitch
      | none => false
    if hitch then
      { t1 with driver_id := none, is_in_pool := true, priority := t1.priority + 10 }
    else t1
  else t

def reconcilerSweep2 (db : DB) (now : Nat) : DB :=
  { db with tasks := db.tasks.map (sweep2Step db now) }

/-- One run of the background reconciler bot.check_and_notify_unassigned_tasks
    (bot.py 5641-5756): sweep 1 then sweep 2 on the same store. -/
def check_and_notify_unassigned_tasks (db : DB) (now : Nat) : DB :=
  reconcilerSweep2 (reconcilerSweep1 db now) now

/-- One labelled invocation of an embedded handler, for the reachability
    relation. -/
inductive Op where
  | arrival (uid : Nat) (vn : String) (hitch : Bool) (now : Nat)
  | departure (uid now : Nat)
  | debDeparture (vn : String) (now : Nat)
  | createTask (pid oid gate : Nat) (abk : ABK) (now : Nat)
  | takeTask (did now : Nat)
  | taskComplete (tid now : Nat)
  | gateCompleted (uid tid now : Nat)
  | transferGateCompleted (tid now : Nat)
  | gateOccupied (tid gate : Nat)
  | transferGateOccupied (tid gate : Nat)
  | restartAllHitchStuck
  | reconciler (now : Nat)
deriving DecidableEq, Repr

/-- State effect of one handler invocation. -/
def applyOp (db : DB) : Op → DB
  | Op.arrival uid vn hitch now => (process_arrival_flow db uid vn hitch now).2
  | Op.departure uid now => (process_departure db uid now).2
  | Op.debDeparture vn now => (process_deb_departure_input db vn now).2
  | Op.createTask pid oid gate abk now => (process_gate_assignment db pid oid gate abk now).2
  | Op.takeTask did now => (process_take_task db did now).2
  | Op.taskComplete tid now => (process_task_complete db tid now).2
  | Op.gateCompleted uid tid now => (process_gate_completed db uid tid now).2
  | Op.transferGateCompleted tid now => (process_transfer_gate_completed db tid now).2
  | Op.gateOccupied tid gate => (process_gate_occupied db tid gate).2
  | Op.transferGateOccupied tid gate => (process_transfer_gate_occupied db tid gate).2
  | Op.restartAllHitchStuck => process_restart_all_hitch_stuck db
  | Op.reconciler now => check_and_notify_unassigned_tasks db now

/-- States reachable from the empty store through the embedded handlers. -/
inductive Reachable : DB → Prop where
  | init : Reachable emptyDB
  | step (s : DB) (op : Op) : Reachable s → Reachable (applyOp s op)

/-- Replay a list of handler invocations from the empty store. -/
def runOps (ops : List Op) : DB := ops.foldl applyOp emptyDB

theorem reachable_foldl (ops : List Op) :
    ∀ s : DB, Reachable s → Reachable (ops.foldl applyOp s) := by
  induction ops with
  | nil => intro s hs; exact hs
  | cons op rest ih =>
      intro s hs
      exact ih (applyOp s op) (Reachable.step s op hs)

theorem reachable_runOps (ops : List Op) : Reachable (runOps ops) :=
  reachable_foldl ops emptyDB Reachable.init

/-! ### Generic lemmas about the embedded query combinators -/

theorem pickBest_mem {α : Type} (better : α → α → Prop) [∀ a b, Decidable (better a b)]
    (l : List α) : ∀ (acc : Option α) (t : α), pickBest better acc l = some t →
      acc = some t ∨ t ∈ l := by
  induction l with
  | nil =>
      intro acc t h
      match acc with
      | none => cases h
      | some b => left; exact h
  | cons x xs ih =>
      intro acc t h
      match acc with
      | none =>
          rw [pickBest] at h
          rcases ih (some x) t h with h1 | h2
          · right
            rw [Option.some_inj.mp h1.symm]
            exact List.mem_cons_self x xs
          · right; exact List.mem_cons_of_mem x h2
      | some b =>
          rw [pickBest] at h
          by_cases hb : better b x
          · rw [if_pos hb] at h
            rcases ih (some x) t h with h1 | h2
            · right
              rw [Option.some_inj.mp h1.symm]
              exact List.mem_cons_self x xs
            · right; exact List.mem_cons_of_mem x h2
          · rw [if_neg hb] at h
            rcases ih (some b) t h with h1 | h2
            · left; exact h1
            · right; exact List.mem_cons_of_mem x h2

theorem pickBest_not_better {α : Type} (better : α → α → Prop)
    [∀ a b, Decidable (better a b)]
    (hirr : ∀ a, ¬ better a a)
    (hstep : ∀ t b x, ¬ better t x → better b x → ¬ better t b)
    (hkeep : ∀ t b x, ¬ better t b → ¬ better b x → ¬ better t x)
    (l : List α) : ∀ (acc : Option α) (t : α), pickBest better acc l = some t →
      (∀ u ∈ l, ¬ better t u) ∧ (∀ b, acc = some b → ¬ better t b) := by
  induction l with
  | nil =>
      intro acc t h
      match acc with
      | none => cases h
      | some b =>
          constructor
          · intro u hu
            cases hu
          · intro b2 hb2
            have hbt : b = t := Option.some_inj.mp h
            have hbb : b = b2 := Option.some_inj.mp hb2
            rw [← hbt, ← hbb]
            exact hirr b
  | cons x xs ih =>
      intro acc t h
      match acc with
      | none =>
          rw [pickBest] at h
          have hx := ih (some x) t h
          constructor
          · intro u hu
            rcases List.mem_cons.mp hu with rfl | hu2
            · exact hx.2 u rfl
            · exact hx.1 u hu2
          · intro b hb
            cases hb
      | some b =>
          rw [pickBest] at h
          by_cases hb : better b x
          · rw [if_pos hb] at h
            have hx := ih (some x) t h
            have htx : ¬ better t x := hx.2 x rfl
            constructor
            · intro u hu
              rcases List.mem_cons.mp hu with rfl | hu2
              · exact htx
              · exact hx.1 u hu2
            · intro b2 hb2
              have hbb : b = b2 := Option.some_inj.mp hb2
              rw [← hbb]
              exact hstep t b x htx hb
          · rw [if_neg hb] at h
            have hx := ih (some b) t h
            have htb : ¬ better t b := hx.2 b rfl
            constructor
            · intro u hu
              rcases List.mem_cons.mp hu with rfl | hu2
              · exact hkeep t b u htb hb
              · exact hx.1 u hu2
            · intro b2 hb2
              have hbb : b = b2 := Option.some_inj.mp hb2
              rw [← hbb]
              exact htb

theorem betterTask_irrefl (a : Task) : ¬ BetterTask a a := by
  unfold BetterTask
  omega

theorem betterTask_step (t b x : Task) (h1 : ¬ BetterTask t x) (h2 : BetterTask b x) :
    ¬ BetterTask t b := by
  unfold BetterTask at h1 h2 ⊢
  omega

theorem betterTask_keep (t b x : Task) (h1 : ¬ BetterTask t b) (h2 : ¬ BetterTask b x) :
    ¬ BetterTask t x := by
  unfold BetterTask at h1 h2 ⊢
  omega

theorem earliestWaiting_mem (q : List QueueEntry) (e : QueueEntry)
    (h : earliestWaiting q = some e) : e ∈ q ∧ e.status = QueueStatus.waiting := by
  rcases pickBest_mem _ _ none e h with h1 | h2
  · cases h1
  · have hm := List.mem_filter.mp h2
    exact ⟨hm.1, by simpa using hm.2⟩

/-- `find?` commutes with an id-preserving conditional map. -/
theorem find?_map_ite {α : Type} (l : List α) (key : α → Nat) (tid : Nat) (f : α → α)
    (hf : ∀ x, key (f x) = key x) :
    (l.map (fun x => if key x == tid then f x else x)).find? (fun x => key x == tid)
      = (l.find? (fun x => key x == tid)).map f := by
  induction l with
  | nil => rfl
  | cons a as ih =>
      by_cases h : (key a == tid) = true
      · have h2 : (key (f a) == tid) = true := by rw [hf]; exact h
        simp [List.find?, h, h2]
      · have hb : (key a == tid) = false := by
          cases hv : (key a == tid) with
          | false => rfl
          | true => exact absurd hv h
        simpa [List.find?, hb] using ih

theorem firstFree_some (occ : List Nat) (fuel : Nat) :
    ∀ n s, firstFree occ fuel n = some s →
      n ≤ s ∧ s < n + fuel ∧ occ.contains s = false ∧
      ∀ m, n ≤ m → m < s → occ.contains m = true := by
  induction fuel with
  | zero => intro n s h; cases h
  | succ k ih =>
      intro n s h
      unfold firstFree at h
      by_cases hc : occ.contains n = true
      · rw [if_pos hc] at h
        obtain ⟨h1, h2, h3, h4⟩ := ih (n + 1) s h
        refine ⟨by omega, by omega, h3, ?_⟩
        intro m hm1 hm2
        rcases Nat.eq_or_lt_of_le hm1 with rfl | hlt
        · exact hc
        · exact h4 m hlt hm2
      · have hc2 : occ.contains n = false := by
          cases hv : occ.contains n with
          | false => rfl
          | true => exact absurd hv hc
        rw [if_neg hc] at h
        cases h
        exact ⟨Nat.le_refl n, by omega, hc2, by intro m hm1 hm2; omega⟩

theorem firstFree_none (occ : List Nat) (fuel : Nat) :
    ∀ n, firstFree occ fuel n = none →
      ∀ m, n ≤ m → m < n + fuel → occ.contains m = true := by
  induction fuel with
  | zero => intro n _ m hm1 hm2; omega
  | succ k ih =>
      intro n h m hm1 hm2
      unfold firstFree at h
      by_cases hc : occ.contains n = true
      · rw [if_pos hc] at h
        rcases Nat.eq_or_lt_of_le hm1 with rfl | hlt
        · exact hc
        · exact ih (n + 1) h m hlt (by omega)
      · rw [if_neg hc] at h
        cases h

/-- `find?` commutes with a map that preserves the searched key. -/
theorem find?_map_keyed {α : Type} (l : List α) (key : α → Nat) (tid : Nat) (F : α → α)
    (hF : ∀ x, key (F x) = key x) :
    (l.map F).find? (fun x => key x == tid) = (l.find? (fun x => key x == tid)).map F := by
  induction l with
  | nil => rfl
  | cons a as ih =>
      by_cases h : (key a == tid) = true
      · have h2 : (key (F a) == tid) = true := by rw [hF]; exact h
        simp [List.find?, h, h2]
      · have hb : (key a == tid) = false := by
          cases hv : (key a == tid) with
          | false => rfl
          | true => exact absurd hv h
        have hb2 : (key (F a) == tid) = false := by rw [hF]; exact hb
        simpa [List.find?, hb, hb2] using ih

theorem findTask_updateTask (db : DB) (tid : Nat) (f : Task → Task)
    (hf : ∀ u, (f u).id = u.id) :
    findTask (updateTask db tid f) tid = (findTask db tid).map f := by
  unfold findTask updateTask
  exact find?_map_ite db.tasks Task.id tid f hf

theorem findParking_updateParking (db : DB) (pid : Nat) (f : Parking → Parking)
    (hf : ∀ u, (f u).id = u.id) :
    findParking (updateParking db pid f) pid = (findParking db pid).map f := by
  unfold findParking updateParking
  exact find?_map_ite db.parkings Parking.id pid f hf

theorem findParking_updateTask (db : DB) (tid : Nat) (f : Task → Task) (pid : Nat) :
    findParking (updateTask db tid f) pid = findParking db pid := rfl

theorem findTask_updateParking (db : DB) (pid : Nat) (f : Parking → Parking) (tid : Nat) :
    findTask (updateParking db pid f) tid = findTask db tid := rfl

theorem queue_updateTask (db : DB) (tid : Nat) (f : Task → Task) :
    (updateTask db tid f).queue = db.queue := rfl

theorem queue_updateParking (db : DB) (pid : Nat) (f : Parking → Parking) :
    (updateParking db pid f).queue = db.queue := rfl

theorem tasks_updateParking (db : DB) (pid : Nat) (f : Parking → Parking) :
    (updateParking db pid f).tasks = db.tasks := rfl

theorem tasks_updateQueueEntry (db : DB) (qid : Nat) (f : QueueEntry → QueueEntry) :
    (updateQueueEntry db qid f).tasks = db.tasks := rfl

theorem parkings_updateQueueEntry (db : DB) (qid : Nat) (f : QueueEntry → QueueEntry) :
    (updateQueueEntry db qid f).parkings = db.parkings := rfl

/-- Pigeonhole: a duplicate-free list of at least `n` values drawn from
    `1..n` contains every value of `1..n`. -/
theorem nodup_icc_full (l : List Nat) (n : Nat) (hnd : l.Nodup)
    (hsub : ∀ x ∈ l, 1 ≤ x ∧ x ≤ n) (hlen : n ≤ l.length) :
    ∀ m, 1 ≤ m → m ≤ n → m ∈ l := by
  intro m hm1 hm2
  have hsub2 : l.toFinset ⊆ Finset.Icc 1 n := by
    intro x hx
    have hx2 := hsub x (List.mem_toFinset.mp hx)
    exact Finset.mem_Icc.mpr hx2
  have hcard : (Finset.Icc 1 n).card ≤ l.toFinset.card := by
    rw [List.toFinset_card_of_nodup hnd, Nat.card_Icc]
    omega
  have heq := Finset.eq_of_subset_of_card_le hsub2 hcard
  have hmem : m ∈ l.toFinset := by
    rw [heq]
    exact Finset.mem_Icc.mpr ⟨hm1, hm2⟩
  exact List.mem_toFinset.mp hmem

/-! ### Claim C1: task exclusivity per occupancy -/

/-- Number of PENDING/IN_PROGRESS tasks attached to one occupancy. -/
def activeTaskCount (db : DB) (pid : Nat) : Nat :=
  (db.tasks.filter (fun t => t.parking_id == pid &&
     (t.status == TaskStatus.PENDING || t.status == TaskStatus.IN_PROGRESS))).length

/-- A trace violating task exclusivity: a transfer-capable vehicle parks, the
    operator creates task 1, a transfer driver claims it, reports the gate
    occupied (task 1 becomes STUCK), the operator creates task 2 for the same
    occupancy (allowed, task 1 is not PENDING/IN_PROGRESS), and finally the
    bulk restart resets task 1 to PENDING next to the PENDING task 2. -/
def c1ops : List Op :=
  [ Op.arrival 1 "A111AA11" true 0,
    Op.createTask 1 2 5 ABK.ABK1 0,
    Op.takeTask 3 1,
    Op.transferGateOccupied 1 5,
    Op.createTask 1 2 6 ABK.ABK1 3,
    Op.restartAllHitchStuck ]

def c1state : DB := runOps c1ops

/-- Claim C1 is false as stated: a state with two concurrently-active tasks on
    one occupancy is reachable, because `process_restart_all_hitch_stuck`
    resets STUCK tasks to PENDING without checking for an existing active task
    on the same occupancy. -/
theorem C1_counterexample : Reachable c1state ∧ 2 ≤ activeTaskCount c1state 1 :=
  ⟨reachable_runOps c1ops, by decide⟩

/-- Claim C1 (amended): task creation is indeed rejected with a
    duplicate-active-task conflict whenever the occupancy already has a task
    in PENDING or IN_PROGRESS, and the store is left unchanged; exclusivity
    can still be broken by the bulk restart of STUCK transfer-capable tasks,
    which re-activates tasks without this check (see the counterexample). -/
theorem C1_theorem (db : DB) (pid oid gate : Nat) (abk : ABK) (now : Nat)
    (p : Parking) (t : Task)
    (hgate : is_valid_gate abk gate = true)
    (hp : findParking db pid = some p)
    (hact : activeTaskFor db pid = some t) :
    process_gate_assignment db pid oid gate abk now
      = (CreateTaskResult.duplicateActive t.id, db) := by
  have hgz : (gate == 0) = false := by
    have hne : gate ≠ 0 := by
      cases abk <;> simp [is_valid_gate] at hgate <;> omega
    simpa using hne
  simp [process_gate_assignment, hgz, hgate, hp, hact]

def c1wParking : Parking :=
  { id := 1, user_id := 7, vehicle_number := "A111AA11", spot_number := 3,
    arrival_time := 0, departure_time := none, is_hitch := true, gate_number := none }

def c1wTask : Task :=
  { id := 1, parking_id := 1, driver_id := none, operator_id := 2, gate_number := 5,
    status := TaskStatus.PENDING, priority := 0, created_at := 0, started_at := none,
    completed_at := none, is_stuck := false, stuck_reason := none,
    assigned_driver_id := none, is_in_pool := true }

def c1wDB : DB := ⟨[c1wParking], [c1wTask], []⟩

/-- Witness for `C1_theorem` at a concrete store. -/
theorem C1_witness :
    process_gate_assignment c1wDB 1 2 5 ABK.ABK1 9
      = (CreateTaskResult.duplicateActive 1, c1wDB) :=
  C1_theorem c1wDB 1 2 5 ABK.ABK1 9 c1wParking c1wTask rfl rfl rfl

/-! ### Shared invariant: queue statuses never leave {waiting, notified} -/

theorem queue_entries_applyOp (db : DB) (op : Op) (e : QueueEntry)
    (he : e ∈ (applyOp db op).queue) :
    e ∈ db.queue ∨ e.status = QueueStatus.waiting ∨ e.status = QueueStatus.notified := by
  cases op with
  | arrival uid vn hitch now =>
      simp only [applyOp] at he
      unfold process_arrival_flow at he
      split at he
      · exact Or.inl he
      · split at he
        · exact Or.inl he
        · split at he
          · exact Or.inl he
          · unfold add_to_parking_queue at he
            rcases List.mem_append.mp he with h1 | h2
            · exact Or.inl h1
            · have h3 : e = ⟨nextQueueId db, uid, vn, hitch, now, none,
                  QueueStatus.waiting, none⟩ := by
                simpa using h2
              rw [h3]
              exact Or.inr (Or.inl rfl)
  | departure uid now =>
      simp only [applyOp] at he
      unfold process_departure at he
      split at he
      · exact Or.inl he
      · split at he
        · exact Or.inl he
        · unfold process_parking_departure at he
          simp only [] at he
          split at he
          · exact Or.inl he
          · rename_i e0 heq0
            unfold updateQueueEntry at he
            rcases List.mem_map.mp he with ⟨q, hq, hqe⟩
            by_cases hid : (q.id == e0.id) = true
            · rw [if_pos hid] at hqe
              rw [← hqe]
              exact Or.inr (Or.inr rfl)
            · rw [if_neg hid] at hqe
              rw [← hqe]
              exact Or.inl hq
  | debDeparture vn now =>
      simp only [applyOp] at he
      unfold process_deb_departure_input at he
      split at he
      · exact Or.inl he
      · exact Or.inl he
  | createTask pid oid gate abk now =>
      simp only [applyOp] at he
      unfold process_gate_assignment at he
      split at he
      · exact Or.inl he
      · split at he
        · exact Or.inl he
        · split at he
          · exact Or.inl he
          · split at he
            · exact Or.inl he
            · exact Or.inl he
  | takeTask did now =>
      simp only [applyOp] at he
      unfold process_take_task releaseStuckOf at he
      simp only [] at he
      split at he
      all_goals try simp only [] at he
      all_goals try split at he
      all_goals try simp only [] at he
      all_goals try split at he
      all_goals exact Or.inl he
  | taskComplete tid now =>
      simp only [applyOp] at he
      unfold process_task_complete at he
      split at he
      · exact Or.inl he
      · simp only [] at he
        split at he
        · exact Or.inl he
        · exact Or.inl he
  | gateCompleted uid tid now =>
      simp only [applyOp] at he
      unfold process_gate_completed at he
      split at he
      · exact Or.inl he
      · simp only [] at he
        split at he
        · exact Or.inl he
        · exact Or.inl he
  | transferGateCompleted tid now =>
      simp only [applyOp] at he
      unfold process_transfer_gate_completed at he
      split at he
      · exact Or.inl he
      · simp only [] at he
        split at he
        · exact Or.inl he
        · exact Or.inl he
  | gateOccupied tid gate =>
      simp only [applyOp] at he
      unfold process_gate_occupied at he
      split at he
      · exact Or.inl he
      · exact Or.inl he
  | transferGateOccupied tid gate =>
      simp only [applyOp] at he
      unfold process_transfer_gate_occupied at he
      split at he
      · exact Or.inl he
      · exact Or.inl he
  | restartAllHitchStuck =>
      simp only [applyOp] at he
      unfold process_restart_all_hitch_stuck at he
      exact Or.inl he
  | reconciler now =>
      simp only [applyOp] at he
      unfold check_and_notify_unassigned_tasks reconcilerSweep1 reconcilerSweep2 at he
      exact Or.inl he

/-- In every reachable state, every queue entry is `waiting` or `notified`:
    no handler ever writes the terminal statuses. -/
theorem queue_status_invariant (s : DB) (hs : Reachable s) :
    ∀ e ∈ s.queue, e.status = QueueStatus.waiting ∨ e.status = QueueStatus.notified := by
  induction hs with
  | init => intro e he; cases he
  | step s0 op hr ih =>
      intro e he
      rcases queue_entries_applyOp s0 op e he with h1 | h2 | h3
      · exact ih e h1
      · exact Or.inl h2
      · exact Or.inr h3

/-! ### Claim C3: there is no confirm-arrival path for notified entries -/

def c3db : DB :=
  ⟨[], [], [⟨1, 2, "C333CC33", false, 0, some 5, QueueStatus.notified, some 1⟩]⟩

/-- Claim C3 describes intended behavior the code does not implement.  The
    occupant of a notified queue entry (reserved spot 1) presses "Прибытие":
    the handler answers "already in queue" and leaves the store unchanged —
    no Occupancy is created and the entry stays `notified`.  Moreover, in
    every reachable state every queue entry is `waiting` or `notified`: no
    handler ever writes the terminal statuses (`assigned`, `cancelled`)
    declared in models.py, so no entry ever leaves the queue successfully. -/
theorem C3_theorem :
    process_arrival_flow c3db 2 "C333CC33" false 6 = (ArrivalResult.alreadyQueued, c3db) ∧
    (∀ s, Reachable s → ∀ e ∈ s.queue,
        e.status = QueueStatus.waiting ∨ e.status = QueueStatus.notified) :=
  ⟨by decide, fun s hs => queue_status_invariant s hs⟩

/-! ### Claim C2: completion is not idempotent -/

def c2db : DB :=
  ⟨[{ id := 1, user_id := 4, vehicle_number := "B222BB22", spot_number := 1,
      arrival_time := 0, departure_time := none, is_hitch := false, gate_number := none }],
   [{ id := 1, parking_id := 1, driver_id := some 4, operator_id := 2, gate_number := 7,
      status := TaskStatus.IN_PROGRESS, priority := 0, created_at := 0, started_at := some 0,
      completed_at := none, is_stuck := false, stuck_reason := none,
      assigned_driver_id := some 4, is_in_pool := false }],
   []⟩

def c2dbAfterFirst : DB := (process_task_complete c2db 1 10).2

/-- Claim C2 is false as stated: the second completion of the same task is not
    rejected with a conflict; it succeeds again, re-sets `completed_at`
    (10 → 20) and re-sets the occupancy field `departure_time` (10 → 20), so the
    spot is not released exactly once. -/
theorem C2_counterexample :
    (process_task_complete c2db 1 10).1 = OpResult.ok ∧
    (process_task_complete c2dbAfterFirst 1 20).1 = OpResult.ok ∧
    (findTask c2dbAfterFirst 1).map Task.completed_at = some (some 10) ∧
    (findTask (process_task_complete c2dbAfterFirst 1 20).2 1).map Task.completed_at
      = some (some 20) ∧
    (findParking c2dbAfterFirst 1).map Parking.departure_time = some (some 10) ∧
    (findParking (process_task_complete c2dbAfterFirst 1 20).2 1).map Parking.departure_time
      = some (some 20) := by decide

/-- Claim C2 (amended): `process_task_complete` performs no status check:
    every call on an existing task succeeds, sets the task COMPLETED with
    `completed_at := now`, and re-sets the associated occupancy field
    `departure_time` and gate number, whatever the current status; a repeated
    call is therefore applied again instead of returning a conflict. -/
theorem C2_theorem (db : DB) (tid now : Nat) (t : Task)
    (ht : findTask db tid = some t) :
    (process_task_complete db tid now).1 = OpResult.ok ∧
    findTask (process_task_complete db tid now).2 tid
      = some { t with status := TaskStatus.COMPLETED, completed_at := some now } ∧
    (∀ p, findParking db t.parking_id = some p →
       findParking (process_task_complete db tid now).2 t.parking_id
         = some { p with departure_time := some now, gate_number := some t.gate_number }) ∧
    (process_task_complete db tid now).2.queue = db.queue := by
  cases hp : findParking db t.parking_id with
  | none =>
      refine ⟨?_, ?_, ?_, ?_⟩
      · simp [process_task_complete, ht, findParking_updateTask, hp]
      · simp only [process_task_complete, ht, findParking_updateTask, hp]
        rw [findTask_updateTask db tid
              (fun u => { u with status := TaskStatus.COMPLETED, completed_at := some now })
              (fun u => rfl), ht]
        rfl
      · intro p2 hp2
        cases hp2
      · simp [process_task_complete, ht, findParking_updateTask, hp, queue_updateTask]
  | some p =>
      have hpid : p.id = t.parking_id := by
        have := List.find?_some hp
        simpa using this
      refine ⟨?_, ?_, ?_, ?_⟩
      · simp [process_task_complete, ht, findParking_updateTask, hp]
      · simp only [process_task_complete, ht, findParking_updateTask, hp]
        rw [findTask_updateParking, findTask_updateTask db tid
              (fun u => { u with status := TaskStatus.COMPLETED, completed_at := some now })
              (fun u => rfl), ht]
        rfl
      · intro p2 hp2
        have hpp : p2 = p := (Option.some_inj.mp hp2).symm
        subst hpp
        simp only [process_task_complete, ht, findParking_updateTask, hp]
        rw [← hpid, findParking_updateParking
              (updateTask db tid
                (fun u => { u with status := TaskStatus.COMPLETED, completed_at := some now }))
              p2.id
              (fun q => { q with departure_time := some now, gate_number := some t.gate_number })
              (fun u => rfl)]
        have hfind : findParking (updateTask db tid
            (fun u => { u with status := TaskStatus.COMPLETED, completed_at := some now }))
            p2.id = some p2 := by
          rw [findParking_updateTask, hpid]
          exact hp
        rw [hfind]
        rfl
      · simp [process_task_complete, ht, findParking_updateTask, hp, queue_updateTask,
              queue_updateParking]

def c2wParking : Parking :=
  { id := 1, user_id := 4, vehicle_number := "B222BB22", spot_number := 1,
    arrival_time := 0, departure_time := some 10, is_hitch := false, gate_number := some 7 }

def c2wTask : Task :=
  { id := 1, parking_id := 1, driver_id := some 4, operator_id := 2, gate_number := 7,
    status := TaskStatus.COMPLETED, priority := 0, created_at := 0, started_at := some 0,
    completed_at := some 10, is_stuck := false, stuck_reason := none,
    assigned_driver_id := some 4, is_in_pool := false }

def c2wDB : DB := ⟨[c2wParking], [c2wTask], []⟩

/-- Witness for `C2_theorem`: a task that is already COMPLETED (with its
    occupancy already released) is completed again. -/
theorem C2_witness :
    (process_task_complete c2wDB 1 20).1 = OpResult.ok ∧
    findTask (process_task_complete c2wDB 1 20).2 1
      = some { c2wTask with status := TaskStatus.COMPLETED, completed_at := some 20 } ∧
    findParking (process_task_complete c2wDB 1 20).2 1
      = some { c2wParking with departure_time := some 20, gate_number := some 7 } ∧
    (process_task_complete c2wDB 1 20).2.queue = c2wDB.queue :=
  ⟨(C2_theorem c2wDB 1 20 c2wTask rfl).1,
   (C2_theorem c2wDB 1 20 c2wTask rfl).2.1,
   (C2_theorem c2wDB 1 20 c2wTask rfl).2.2.1 c2wParking rfl,
   (C2_theorem c2wDB 1 20 c2wTask rfl).2.2.2⟩

/-! ### Claim C4: completion releases the spot but never promotes the queue -/

def c4parking : Parking :=
  { id := 1, user_id := 4, vehicle_number := "D444DD44", spot_number := 1,
    arrival_time := 0, departure_time := none, is_hitch := true, gate_number := none }

def c4task : Task :=
  { id := 1, parking_id := 1, driver_id := some 3, operator_id := 2, gate_number := 7,
    status := TaskStatus.IN_PROGRESS, priority := 0, created_at := 0, started_at := some 5,
    completed_at := none, is_stuck := false, stuck_reason := none,
    assigned_driver_id := none, is_in_pool := true }

def c4entry : QueueEntry :=
  ⟨1, 8, "E555EE55", false, 2, none, QueueStatus.waiting, none⟩

def c4db : DB := ⟨[c4parking], [c4task], [c4entry]⟩

/-- Claim C4 is false as stated: completing an IN_PROGRESS task releases the
    spot (`departure_time` is set), yet the earliest waiting queue entry is
    NOT transitioned to notified — the completion handlers never call queue
    promotion, so the freed spot triggers no notification. -/
theorem C4_counterexample :
    (process_transfer_gate_completed c4db 1 30).1 = OpResult.ok ∧
    (findParking (process_transfer_gate_completed c4db 1 30).2 1).map Parking.departure_time
      = some (some 30) ∧
    (process_transfer_gate_completed c4db 1 30).2.queue = c4db.queue ∧
    (∀ e ∈ (process_transfer_gate_completed c4db 1 30).2.queue,
        e.status = QueueStatus.waiting ∧ e.spot_number = none) := by decide

/-- Claim C4 (amended): completing an IN_PROGRESS task sets status=COMPLETED
    and `completed_at := now`, and releases the spot of the associated occupancy
    (`departure_time := now`, gate number recorded), but arrival-queue
    promotion is not triggered: the queue is left exactly unchanged. -/
theorem C4_theorem (db : DB) (tid now : Nat) (t : Task)
    (ht : findTask db tid = some t) (hst : t.status = TaskStatus.IN_PROGRESS) :
    (process_transfer_gate_completed db tid now).1 = OpResult.ok ∧
    findTask (process_transfer_gate_completed db tid now).2 tid
      = some { t with status := TaskStatus.COMPLETED, completed_at := some now } ∧
    (∀ p, findParking db t.parking_id = some p →
       findParking (process_transfer_gate_completed db tid now).2 t.parking_id
         = some { p with departure_time := some now, gate_number := some t.gate_number }) ∧
    (process_transfer_gate_completed db tid now).2.queue = db.queue := by
  cases hp : findParking db t.parking_id with
  | none =>
      refine ⟨?_, ?_, ?_, ?_⟩
      · simp [process_transfer_gate_completed, ht, findParking_updateTask, hp]
      · simp only [process_transfer_gate_completed, ht, findParking_updateTask, hp]
        rw [findTask_updateTask db tid
              (fun u => { u with status := TaskStatus.COMPLETED, completed_at := some now })
              (fun u => rfl), ht]
        rfl
      · intro p2 hp2
        cases hp2
      · simp [process_transfer_gate_completed, ht, findParking_updateTask, hp,
              queue_updateTask]
  | some p =>
      have hpid : p.id = t.parking_id := by
        have := List.find?_some hp
        simpa using this
      refine ⟨?_, ?_, ?_, ?_⟩
      · simp [process_transfer_gate_completed, ht, findParking_updateTask, hp]
      · simp only [process_transfer_gate_completed, ht, findParking_updateTask, hp]
        rw [findTask_updateParking, findTask_updateTask db tid
              (fun u => { u with status := TaskStatus.COMPLETED, completed_at := some now })
              (fun u => rfl), ht]
        rfl
      · intro p2 hp2
        have hpp : p2 = p := (Option.some_inj.mp hp2).symm
        subst hpp
        simp only [process_transfer_gate_completed, ht, findParking_updateTask, hp]
        rw [← hpid, findParking_updateParking
              (updateTask db tid
                (fun u => { u with status := TaskStatus.COMPLETED, completed_at := some now }))
              p2.id
              (fun q => { q with departure_time := some now, gate_number := some t.gate_number })
              (fun u => rfl)]
        have hfind : findParking (updateTask db tid
            (fun u => { u with status := TaskStatus.COMPLETED, completed_at := some now }))
            p2.id = some p2 := by
          rw [findParking_updateTask, hpid]
          exact hp
        rw [hfind]
        rfl
      · simp [process_transfer_gate_completed, ht, findParking_updateTask, hp,
              queue_updateTask, queue_updateParking]

/-- Witness for `C4_theorem` at the concrete store of the counterexample. -/
theorem C4_witness :
    (process_transfer_gate_completed c4db 1 30).1 = OpResult.ok ∧
    findTask (process_transfer_gate_completed c4db 1 30).2 1
      = some { c4task with status := TaskStatus.COMPLETED, completed_at := some 30 } ∧
    findParking (process_transfer_gate_completed c4db 1 30).2 1
      = some { c4parking with departure_time := some 30, gate_number := some 7 } ∧
    (process_transfer_gate_completed c4db 1 30).2.queue = c4db.queue :=
  ⟨(C4_theorem c4db 1 30 c4task rfl rfl).1,
   (C4_theorem c4db 1 30 c4task rfl rfl).2.1,
   (C4_theorem c4db 1 30 c4task rfl rfl).2.2.1 c4parking rfl,
   (C4_theorem c4db 1 30 c4task rfl rfl).2.2.2⟩

/-! ### Claim C5: pool selection order and the no-task case -/

theorem pickBest_acc_some {α : Type} (better : α → α → Prop) [∀ a b, Decidable (better a b)]
    (l : List α) : ∀ b : α, ∃ t, pickBest better (some b) l = some t := by
  induction l with
  | nil => intro b; exact ⟨b, rfl⟩
  | cons x xs ih =>
      intro b
      rw [pickBest]
      by_cases hb : better b x
      · rw [if_pos hb]; exact ih x
      · rw [if_neg hb]; exact ih b

/-- When `selectPoolTask` returns a task, that task is eligible and optimal
    for `priority DESC, created_at ASC` among all eligible tasks. -/
theorem selectPoolTask_spec_some (db : DB) (t : Task) (h : selectPoolTask db = some t) :
    t ∈ db.tasks ∧ poolEligible db t = true ∧
    ∀ u ∈ db.tasks, poolEligible db u = true →
      u.priority ≤ t.priority ∧ (u.priority = t.priority → t.created_at ≤ u.created_at) := by
  rcases pickBest_mem BetterTask (db.tasks.filter (poolEligible db)) none t h with h1 | h2
  · cases h1
  · have hf := List.mem_filter.mp h2
    have hmax := pickBest_not_better BetterTask betterTask_irrefl betterTask_step
        betterTask_keep (db.tasks.filter (poolEligible db)) none t h
    refine ⟨hf.1, hf.2, ?_⟩
    intro u hu he
    have hnb : ¬ BetterTask t u := hmax.1 u (List.mem_filter.mpr ⟨hu, he⟩)
    unfold BetterTask at hnb
    constructor
    · omega
    · intro hpe
      omega

/-- When `selectPoolTask` returns nothing, no task is eligible. -/
theorem selectPoolTask_none (db : DB) (h : selectPoolTask db = none) :
    ∀ u ∈ db.tasks, poolEligible db u = false := by
  intro u hu
  cases hv : poolEligible db u with
  | false => rfl
  | true =>
      exfalso
      have hmem : u ∈ db.tasks.filter (poolEligible db) := List.mem_filter.mpr ⟨hu, hv⟩
      unfold selectPoolTask at h
      cases hl : db.tasks.filter (poolEligible db) with
      | nil => rw [hl] at hmem; cases hmem
      | cons y ys =>
          rw [hl, pickBest] at h
          obtain ⟨t2, ht2⟩ := pickBest_acc_some BetterTask ys y
          rw [ht2] at h
          cases h

def c5parking : Parking :=
  { id := 1, user_id := 9, vehicle_number := "F666FF66", spot_number := 2,
    arrival_time := 0, departure_time := some 40, is_hitch := true, gate_number := none }

def c5task : Task :=
  { id := 1, parking_id := 1, driver_id := some 3, operator_id := 2, gate_number := 4,
    status := TaskStatus.STUCK, priority := 0, created_at := 0, started_at := some 1,
    completed_at := none, is_stuck := true, stuck_reason := none,
    assigned_driver_id := none, is_in_pool := false }

def c5db : DB := ⟨[c5parking], [c5task], []⟩

/-- Claim C5 is false as stated: a driver holding a STUCK task whose vehicle
    has already departed calls claimFromPool on a store with no eligible task;
    the result is the no-task outcome, yet the state HAS changed — the STUCK
    task was auto-released (PENDING, back in the pool, priority + 5). -/
theorem C5_counterexample :
    (∀ u ∈ c5db.tasks, poolEligible c5db u = false) ∧
    (process_take_task c5db 3 50).1 = TakeTaskResult.noTask ∧
    (process_take_task c5db 3 50).2 ≠ c5db ∧
    (findTask (process_take_task c5db 3 50).2 1).map Task.priority = some 5 ∧
    (findTask (process_take_task c5db 3 50).2 1).map Task.status
      = some TaskStatus.PENDING := by decide

/-- Claim C5 (amended): for a caller with no STUCK and no IN_PROGRESS task
    attributed, claimFromPool selects among all eligible tasks (PENDING, in
    the pool, unassigned, occupancy transfer-capable and still parked) one
    with maximum priority, ties broken by minimum created_time; when no
    eligible task exists it returns the no-task outcome and changes no state.
    (When the caller holds a STUCK task, that task is first auto-released —
    status PENDING, pool, priority + 5 — even if no task is then available,
    so the no-state-change part does not extend to that case.) -/
theorem C5_theorem (db : DB) (did now : Nat)
    (hstuck : db.tasks.find? (fun t => t.driver_id == some did &&
        t.status == TaskStatus.STUCK) = none)
    (hact : db.tasks.find? (fun t => t.driver_id == some did &&
        t.status == TaskStatus.IN_PROGRESS) = none) :
    (∀ t, selectPoolTask db = some t →
        (process_take_task db did now).1 = TakeTaskResult.assigned t.id ∧
        poolEligible db t = true ∧
        ∀ u ∈ db.tasks, poolEligible db u = true →
          u.priority ≤ t.priority ∧ (u.priority = t.priority → t.created_at ≤ u.created_at)) ∧
    (selectPoolTask db = none →
        process_take_task db did now = (TakeTaskResult.noTask, db) ∧
        ∀ u ∈ db.tasks, poolEligible db u = false) := by
  have hrel : releaseStuckOf db did = db := by
    unfold releaseStuckOf
    rw [hstuck]
  constructor
  · intro t hsel
    have hspec := selectPoolTask_spec_some db t hsel
    refine ⟨?_, hspec.2.1, hspec.2.2⟩
    simp only [process_take_task, hrel, hact, hsel]
  · intro hsel
    refine ⟨?_, selectPoolTask_none db hsel⟩
    simp only [process_take_task, hrel, hact, hsel]

def c5wparking : Parking :=
  { id := 1, user_id := 9, vehicle_number := "F666FF66", spot_number := 2,
    arrival_time := 0, departure_time := none, is_hitch := true, gate_number := none }

def c5wtaskA : Task :=
  { id := 1, parking_id := 1, driver_id := none, operator_id := 2, gate_number := 4,
    status := TaskStatus.PENDING, priority := 5, created_at := 3, started_at := none,
    completed_at := none, is_stuck := false, stuck_reason := none,
    assigned_driver_id := none, is_in_pool := true }

def c5wtaskB : Task :=
  { id := 2, parking_id := 1, driver_id := none, operator_id := 2, gate_number := 8,
    status := TaskStatus.PENDING, priority := 1, created_at := 0, started_at := none,
    completed_at := none, is_stuck := false, stuck_reason := none,
    assigned_driver_id := none, is_in_pool := true }

def c5wdb : DB := ⟨[c5wparking], [c5wtaskA, c5wtaskB], []⟩

/-- Witness for `C5_theorem`: between priorities 5 and 1, the claim assigns
    the priority-5 task. -/
theorem C5_witness :
    (process_take_task c5wdb 7 60).1 = TakeTaskResult.assigned 1 ∧
    poolEligible c5wdb c5wtaskA = true :=
  ⟨((C5_theorem c5wdb 7 60 rfl rfl).1 c5wtaskA rfl).1,
   ((C5_theorem c5wdb 7 60 rfl rfl).1 c5wtaskA rfl).2.1⟩

/-! ### Claim C6: one reconciler run, per-task effect -/

theorem sweep1Step_id (db : DB) (now : Nat) (t : Task) :
    (sweep1Step db now t).id = t.id := by
  unfold sweep1Step
  simp only []
  repeat' split
  all_goals rfl

theorem sweep2Step_id (db : DB) (now : Nat) (t : Task) :
    (sweep2Step db now t).id = t.id := by
  unfold sweep2Step
  simp only []
  repeat' split
  all_goals rfl

theorem findParking_reconcilerSweep1 (db : DB) (now pid : Nat) :
    findParking (reconcilerSweep1 db now) pid = findParking db pid := rfl

/-- One reconciler run, observed at one task id: the composition of the two
    per-task sweeps. -/
theorem findTask_reconciler (db : DB) (now tid : Nat) :
    findTask (check_and_notify_unassigned_tasks db now) tid
      = (findTask db tid).map
          (fun t => sweep2Step (reconcilerSweep1 db now) now (sweep1Step db now t)) := by
  unfold check_and_notify_unassigned_tasks reconcilerSweep2 reconcilerSweep1 findTask
  simp only []
  rw [find?_map_keyed _ Task.id tid _
        (fun x => sweep2Step_id { db with tasks := db.tasks.map (sweep1Step db now) } now x)]
  rw [find?_map_keyed _ Task.id tid _ (fun x => sweep1Step_id db now x)]
  rw [Option.map_map]
  rfl

def c6parking : Parking :=
  { id := 1, user_id := 4, vehicle_number := "G777GG77", spot_number := 1,
    arrival_time := 0, departure_time := some 20, is_hitch := true, gate_number := none }

def c6task : Task :=
  { id := 1, parking_id := 1, driver_id := none, operator_id := 2, gate_number := 7,
    status := TaskStatus.PENDING, priority := 0, created_at := 0, started_at := none,
    completed_at := none, is_stuck := false, stuck_reason := none,
    assigned_driver_id := none, is_in_pool := true }

def c6db : DB := ⟨[c6parking], [c6task], []⟩

/-- Claim C6 is false as stated: a PENDING pool task far older than the
    15-minute threshold, whose vehicle has departed (the inspection-employee
    departure path allows this while a task is PENDING), is skipped by the
    reconciler: its priority stays 0 instead of increasing by 1, because the
    unclaimed-pool sweep joins on `Parking.departure_time == None`. -/
theorem C6_counterexample :
    c6task.status = TaskStatus.PENDING ∧ c6task.is_in_pool = true ∧
    c6task.created_at + POOL_WAIT_MINUTES ≤ 100 ∧
    (findTask (check_and_notify_unassigned_tasks c6db 100) 1).map Task.priority = some 0 ∧
    (findTask (check_and_notify_unassigned_tasks c6db 100) 1).map Task.status
      = some TaskStatus.PENDING := by decide

/-- Claim C6 (amended): one reconciler run is deterministic and idempotent per
    task.  Every PENDING pool task past the 15-minute threshold WHOSE VEHICLE
    IS STILL PARKED has its priority increased by exactly 1 and nothing else
    changed (a PENDING pool task whose vehicle has departed is skipped); every
    IN_PROGRESS task started at least 30 minutes ago becomes STUCK with a
    stuck_reason indicating the timeout, and if its vehicle is
    transfer-capable its driver is cleared, it re-enters the pool and its
    priority increases by exactly 10 (otherwise priority, driver and pool
    membership are unchanged). -/
theorem C6_theorem (db : DB) (now tid : Nat) (t : Task) (p : Parking)
    (ht : findTask db tid = some t)
    (hp : findParking db t.parking_id = some p) :
    (t.status = TaskStatus.PENDING → t.is_in_pool = true →
       t.created_at + POOL_WAIT_MINUTES ≤ now → p.departure_time = none →
       findTask (check_and_notify_unassigned_tasks db now) tid
         = some { t with priority := t.priority + 1 }) ∧
    (∀ st, t.status = TaskStatus.IN_PROGRESS → t.started_at = some st →
       st + IN_PROGRESS_TIMEOUT_MINUTES ≤ now →
       ((p.is_hitch = true →
           findTask (check_and_notify_unassigned_tasks db now) tid
             = some { t with status := TaskStatus.STUCK, is_stuck := true,
                             stuck_reason := some (timeoutReason (now - st)),
                             driver_id := none, is_in_pool := true,
                             priority := t.priority + 10 }) ∧
        (p.is_hitch = false →
           findTask (check_and_notify_unassigned_tasks db now) tid
             = some { t with status := TaskStatus.STUCK, is_stuck := true,
                             stuck_reason := some (timeoutReason (now - st)) }))) := by
  constructor
  · intro hstat hpool hold hdep
    have h1 : sweep1Step db now t = { t with priority := t.priority + 1 } := by
      unfold sweep1Step
      rw [hp]
      simp [hstat, hpool, hold, hdep]
    have h2 : sweep2Step (reconcilerSweep1 db now) now { t with priority := t.priority + 1 }
        = { t with priority := t.priority + 1 } := by
      unfold sweep2Step
      simp [hstat]
    rw [findTask_reconciler, ht]
    simp only [Option.map]
    rw [h1, h2]
  · intro st hstat hstart hold
    have h1 : sweep1Step db now t = t := by
      unfold sweep1Step
      simp [hstat]
    constructor
    · intro hh
      have h2 : sweep2Step (reconcilerSweep1 db now) now t
          = { t with status := TaskStatus.STUCK, is_stuck := true,
                       stuck_reason := some (timeoutReason (now - st)),
                       driver_id := none, is_in_pool := true,
                       priority := t.priority + 10 } := by
        unfold sweep2Step
        rw [findParking_reconcilerSweep1, hp, hstart]
        simp [hstat, hold, hh, hstart]
      rw [findTask_reconciler, ht]
      simp only [Option.map]
      rw [h1, h2]
    · intro hh
      have h2 : sweep2Step (reconcilerSweep1 db now) now t
          = { t with status := TaskStatus.STUCK, is_stuck := true,
                       stuck_reason := some (timeoutReason (now - st)) } := by
        unfold sweep2Step
        rw [findParking_reconcilerSweep1, hp, hstart]
        simp [hstat, hold, hh, hstart]
      rw [findTask_reconciler, ht]
      simp only [Option.map]
      rw [h1, h2]

def c6wparking : Parking :=
  { id := 1, user_id := 4, vehicle_number := "G777GG77", spot_number := 1,
    arrival_time := 0, departure_time := none, is_hitch := true, gate_number := none }

def c6wtask : Task :=
  { id := 1, parking_id := 1, driver_id := none, operator_id := 2, gate_number := 7,
    status := TaskStatus.PENDING, priority := 2, created_at := 0, started_at := none,
    completed_at := none, is_stuck := false, stuck_reason := none,
    assigned_driver_id := none, is_in_pool := true }

def c6wdb : DB := ⟨[c6wparking], [c6wtask], []⟩

def c6wtask2 : Task :=
  { id := 1, parking_id := 1, driver_id := some 3, operator_id := 2, gate_number := 7,
    status := TaskStatus.IN_PROGRESS, priority := 2, created_at := 0, started_at := some 10,
    completed_at := none, is_stuck := false, stuck_reason := none,
    assigned_driver_id := none, is_in_pool := true }

def c6wdb2 : DB := ⟨[c6wparking], [c6wtask2], []⟩

/-- Witness for `C6_theorem`: the stale-pool branch at one store and the
    in-progress-timeout branch at another. -/
theorem C6_witness :
    findTask (check_and_notify_unassigned_tasks c6wdb 40) 1
      = some { c6wtask with priority := 3 } ∧
    findTask (check_and_notify_unassigned_tasks c6wdb2 45) 1
      = some { c6wtask2 with status := TaskStatus.STUCK, is_stuck := true,
                             stuck_reason := some (timeoutReason 35),
                             driver_id := none, is_in_pool := true, priority := 12 } :=
  ⟨(C6_theorem c6wdb 40 1 c6wtask c6wparking rfl rfl).1 rfl rfl (by decide) rfl,
   ((C6_theorem c6wdb2 45 1 c6wtask2 c6wparking rfl rfl).2 10 rfl rfl (by decide)).1 rfl⟩

/-! ### Claim C7: reportBlocked(GATE_OCCUPIED) behavior -/

theorem gateOccupiedStep_id (hitch : Bool) (gate : Nat) (u : Task) :
    (gateOccupiedStep hitch gate u).id = u.id := by
  unfold gateOccupiedStep
  simp only []
  split <;> rfl

theorem transferGateOccupiedStep_id (gate : Nat) (u : Task) :
    (transferGateOccupiedStep gate u).id = u.id := rfl

def c7parking : Parking :=
  { id := 1, user_id := 4, vehicle_number := "H888HH88", spot_number := 1,
    arrival_time := 0, departure_time := none, is_hitch := false, gate_number := none }

def c7task : Task :=
  { id := 1, parking_id := 1, driver_id := some 4, operator_id := 2, gate_number := 7,
    status := TaskStatus.IN_PROGRESS, priority := 0, created_at := 0, started_at := some 1,
    completed_at := none, is_stuck := false, stuck_reason := none,
    assigned_driver_id := some 4, is_in_pool := false }

def c7db : DB := ⟨[c7parking], [c7task], []⟩

def c7taskC : Task :=
  { id := 1, parking_id := 1, driver_id := some 4, operator_id := 2, gate_number := 7,
    status := TaskStatus.COMPLETED, priority := 0, created_at := 0, started_at := some 1,
    completed_at := some 9, is_stuck := false, stuck_reason := none,
    assigned_driver_id := some 4, is_in_pool := false }

def c7db2 : DB := ⟨[c7parking], [c7taskC], []⟩

/-- Claim C7 is false as stated: on the direct-driver path for a
    fixed-class vehicle the assignee is NOT cleared, the task does NOT
    re-enter the pool and the priority is unchanged (not +10); moreover
    neither handler requires IN_PROGRESS — a COMPLETED task is happily
    marked STUCK. -/
theorem C7_counterexample :
    (findTask (process_gate_occupied c7db 1 7).2 1).map Task.driver_id
      = some (some 4) ∧
    (findTask (process_gate_occupied c7db 1 7).2 1).map Task.is_in_pool = some false ∧
    (findTask (process_gate_occupied c7db 1 7).2 1).map Task.priority = some 0 ∧
    (findTask (process_gate_occupied c7db 1 7).2 1).map Task.status
      = some TaskStatus.STUCK ∧
    c7taskC.status = TaskStatus.COMPLETED ∧
    (process_transfer_gate_occupied c7db2 1 7).1 = OpResult.ok ∧
    (findTask (process_transfer_gate_occupied c7db2 1 7).2 1).map Task.status
      = some TaskStatus.STUCK := by decide

/-- Claim C7 (amended): neither gate-occupied handler checks the current task
    status; both set STUCK with the gate-occupied reason.  On the
    direct-driver path the assignee is never cleared, and the task re-enters
    the pool with priority + 10 exactly when the vehicle is transfer-capable
    (otherwise pool membership and priority are unchanged); on the
    transfer-driver path the assignee is cleared and the task always
    re-enters the pool with priority + 15. -/
theorem C7_theorem (db : DB) (tid gate : Nat) (t : Task) (p : Parking)
    (ht : findTask db tid = some t)
    (hp : findParking db t.parking_id = some p) :
    ((p.is_hitch = true →
        findTask (process_gate_occupied db tid gate).2 tid
          = some { t with status := TaskStatus.STUCK, is_stuck := true,
                          stuck_reason := some (gateOccupiedReason gate),
                          is_in_pool := true, priority := t.priority + 10 }) ∧
     (p.is_hitch = false →
        findTask (process_gate_occupied db tid gate).2 tid
          = some { t with status := TaskStatus.STUCK, is_stuck := true,
                          stuck_reason := some (gateOccupiedReason gate) })) ∧
    findTask (process_transfer_gate_occupied db tid gate).2 tid
      = some { t with status := TaskStatus.STUCK, is_stuck := true,
                      stuck_reason := some (gateOccupiedReason gate),
                      driver_id := none, is_in_pool := true,
                      priority := t.priority + 15 } := by
  refine ⟨⟨?_, ?_⟩, ?_⟩
  · intro hh
    simp only [process_gate_occupied, ht, hp]
    rw [findTask_updateTask db tid (gateOccupiedStep p.is_hitch gate)
          (gateOccupiedStep_id p.is_hitch gate), ht]
    unfold gateOccupiedStep
    simp [hh]
  · intro hh
    simp only [process_gate_occupied, ht, hp]
    rw [findTask_updateTask db tid (gateOccupiedStep p.is_hitch gate)
          (gateOccupiedStep_id p.is_hitch gate), ht]
    unfold gateOccupiedStep
    simp [hh]
  · simp only [process_transfer_gate_occupied, ht]
    rw [findTask_updateTask db tid (transferGateOccupiedStep gate)
          (transferGateOccupiedStep_id gate), ht]
    rfl

/-- Witness for `C7_theorem` at the concrete fixed-class store of the
    counterexample: direct path leaves pool/priority/assignee alone, transfer
    path clears the assignee and adds 15. -/
theorem C7_witness :
    findTask (process_gate_occupied c7db 1 9).2 1
      = some { c7task with status := TaskStatus.STUCK, is_stuck := true,
                           stuck_reason := some (gateOccupiedReason 9) } ∧
    findTask (process_transfer_gate_occupied c7db 1 9).2 1
      = some { c7task with status := TaskStatus.STUCK, is_stuck := true,
                           stuck_reason := some (gateOccupiedReason 9),
                           driver_id := none, is_in_pool := true, priority := 15 } :=
  ⟨((C7_theorem c7db 1 9 c7task c7parking rfl rfl).1).2 rfl,
   (C7_theorem c7db 1 9 c7task c7parking rfl rfl).2⟩

/-! ### Claim C8: vehicle departure (release) -/

theorem parkings_process_parking_departure (db : DB) (spot now : Nat) :
    (process_parking_departure db spot now).2.parkings = db.parkings := by
  unfold process_parking_departure
  split
  · rfl
  · rfl

theorem tasks_process_parking_departure (db : DB) (spot now : Nat) :
    (process_parking_departure db spot now).2.tasks = db.tasks := by
  unfold process_parking_departure
  split
  · rfl
  · rfl

theorem queue_process_parking_departure_none (db : DB) (spot now : Nat)
    (h : earliestWaiting db.queue = none) :
    (process_parking_departure db spot now).2.queue = db.queue := by
  unfold process_parking_departure
  rw [h]

/-- Promotion notifies the earliest waiting entry with the freed spot,
    regardless of any other entry in the queue. -/
theorem queue_process_parking_departure_some (db : DB) (spot now : Nat) (e : QueueEntry)
    (h : earliestWaiting db.queue = some e) :
    { e with status := QueueStatus.notified, notified_at := some now,
             spot_number := some spot } ∈ (process_parking_departure db spot now).2.queue := by
  unfold process_parking_departure
  rw [h]
  have hmem : e ∈ db.queue := (earliestWaiting_mem db.queue e h).1
  unfold updateQueueEntry
  refine List.mem_map.mpr ⟨e, hmem, ?_⟩
  simp

/-- Claim C8 (confirmed): departure fails with no state change when the
    caller has no active occupancy; fails with no state change when that
    occupancy has a task in PENDING/IN_PROGRESS; otherwise the occupancy
    `departure_time` is set (it was null when found, so exactly once), all
    tasks are untouched, and arrival-queue promotion runs for the freed spot:
    the queue is unchanged when nobody is waiting, and the earliest waiting
    entry becomes notified with the freed spot number reserved. -/
theorem C8_theorem (db : DB) (uid now : Nat) :
    (hasActiveParking db uid = none →
        process_departure db uid now = (DepartureResult.notParked, db)) ∧
    (∀ p t, hasActiveParking db uid = some p → activeTaskFor db p.id = some t →
        process_departure db uid now = (DepartureResult.activeTask t.id, db)) ∧
    (∀ p, hasActiveParking db uid = some p → activeTaskFor db p.id = none →
        (process_departure db uid now).1 = DepartureResult.departed p.spot_number ∧
        { p with departure_time := some now } ∈ (process_departure db uid now).2.parkings ∧
        (process_departure db uid now).2.tasks = db.tasks ∧
        (earliestWaiting db.queue = none →
            (process_departure db uid now).2.queue = db.queue) ∧
        (∀ e, earliestWaiting db.queue = some e →
            { e with status := QueueStatus.notified, notified_at := some now,
                     spot_number := some p.spot_number }
              ∈ (process_departure db uid now).2.queue)) := by
  refine ⟨?_, ?_, ?_⟩
  · intro h
    simp [process_departure, h]
  · intro p t hp ht2
    simp [process_departure, hp, ht2]
  · intro p hp ht2
    have hpmem : p ∈ db.parkings := List.mem_of_find?_eq_some hp
    refine ⟨?_, ?_, ?_, ?_, ?_⟩
    · simp [process_departure, hp, ht2]
    · simp only [process_departure, hp, ht2]
      rw [parkings_process_parking_departure]
      unfold updateParking
      refine List.mem_map.mpr ⟨p, hpmem, ?_⟩
      simp
    · simp only [process_departure, hp, ht2]
      rw [tasks_process_parking_departure]
      rfl
    · intro hq
      simp only [process_departure, hp, ht2]
      rw [queue_process_parking_departure_none
            (updateParking db p.id (fun q => { q with departure_time := some now }))
            p.spot_number now hq]
      rfl
    · intro e he
      simp only [process_departure, hp, ht2]
      exact queue_process_parking_departure_some _ _ _ e he

def c8wparking : Parking :=
  { id := 1, user_id := 5, vehicle_number := "K111KK11", spot_number := 2,
    arrival_time := 0, departure_time := none, is_hitch := false, gate_number := none }

def c8wentry : QueueEntry :=
  ⟨1, 6, "L222LL22", false, 3, none, QueueStatus.waiting, none⟩

def c8wdb : DB := ⟨[c8wparking], [], [c8wentry]⟩

/-- Witness for `C8_theorem`: the success branch, with one waiting entry that
    ends up notified with the freed spot. -/
theorem C8_witness :
    (process_departure c8wdb 5 60).1 = DepartureResult.departed 2 ∧
    { c8wparking with departure_time := some 60 }
      ∈ (process_departure c8wdb 5 60).2.parkings ∧
    { c8wentry with status := QueueStatus.notified, notified_at := some 60,
                    spot_number := some 2 }
      ∈ (process_departure c8wdb 5 60).2.queue :=
  ⟨((C8_theorem c8wdb 5 60).2.2 c8wparking rfl rfl).1,
   ((C8_theorem c8wdb 5 60).2.2 c8wparking rfl rfl).2.1,
   ((C8_theorem c8wdb 5 60).2.2 c8wparking rfl rfl).2.2.2.2 c8wentry rfl⟩

/-! ### Claim C9: double notification of one reserved spot -/

/-- A trace producing two entries notified for the same spot: the lot fills
    (50 arrivals), two more vehicles queue, the occupant of spot 1 departs
    (first waiter is notified of spot 1), a fresh arrival is allocated spot 1
    (the free-spot scan ignores the reservation) and departs again, whereupon
    the second waiter is also notified of spot 1. -/
def c9ops : List Op :=
  ((List.range 50).map (fun i => Op.arrival (i + 1) "A1" false i)) ++
  [ Op.arrival 51 "B1" false 50,
    Op.arrival 52 "B2" false 51,
    Op.departure 1 52,
    Op.arrival 53 "B3" false 53,
    Op.departure 53 54 ]

def c9state : DB := runOps c9ops

/-- Number of queue entries notified with a given reserved spot number. -/
def notifiedAtCount (db : DB) (spot : Nat) : Nat :=
  (db.queue.filter (fun e => e.status == QueueStatus.notified &&
     e.spot_number == some spot)).length

set_option maxRecDepth 400000

/-- Claim C9 is false as stated: a reachable state holds two queue entries
    both notified with reserved spot 1 — `process_parking_departure` performs
    no check against already-notified entries. -/
theorem C9_counterexample : Reachable c9state ∧ 2 ≤ notifiedAtCount c9state 1 :=
  ⟨reachable_runOps c9ops, by decide⟩

/-- Claim C9 (amended): promotion performs no verification against existing
    notified entries: even when some other entry is already notified with the
    same reserved spot number, the earliest waiting entry is still notified
    with that spot, after which both entries are notified for it. -/
theorem C9_theorem (db : DB) (spot now : Nat) (e f : QueueEntry)
    (he : earliestWaiting db.queue = some e)
    (hf : f ∈ db.queue) (hfn : f.status = QueueStatus.notified)
    (hfs : f.spot_number = some spot) (hne : f.id ≠ e.id) :
    { e with status := QueueStatus.notified, notified_at := some now,
             spot_number := some spot } ∈ (process_parking_departure db spot now).2.queue ∧
    f ∈ (process_parking_departure db spot now).2.queue := by
  constructor
  · exact queue_process_parking_departure_some db spot now e he
  · unfold process_parking_departure
    rw [he]
    unfold updateQueueEntry
    refine List.mem_map.mpr ⟨f, hf, ?_⟩
    have hbe : ¬ ((f.id == e.id) = true) := by simpa using hne
    rw [if_neg hbe]

def c9wf : QueueEntry := ⟨2, 7, "N333NN33", false, 0, some 4, QueueStatus.notified, some 3⟩

def c9we : QueueEntry := ⟨1, 8, "P444PP44", false, 1, none, QueueStatus.waiting, none⟩

def c9wdb : DB := ⟨[], [], [c9wf, c9we]⟩

/-- Witness for `C9_theorem`: spot 3 is already reserved for a notified entry,
    yet a release of spot 3 notifies the waiting entry of it as well. -/
theorem C9_witness :
    { c9we with status := QueueStatus.notified, notified_at := some 70,
                spot_number := some 3 }
      ∈ (process_parking_departure c9wdb 3 70).2.queue ∧
    c9wf ∈ (process_parking_departure c9wdb 3 70).2.queue :=
  C9_theorem c9wdb 3 70 c9we c9wf rfl (by decide) rfl rfl (by decide)

/-! ### Claim C10: the free-spot scan reads occupancies only -/

theorem occupiedSpots_contains (db : DB) (m : Nat) :
    (occupiedSpots db).contains m = true ↔
      ∃ p ∈ db.parkings, p.departure_time = none ∧ p.spot_number = m := by
  unfold occupiedSpots
  constructor
  · intro h
    have hm : m ∈ ((db.parkings.filter (fun p => p.departure_time.isNone)).map
        Parking.spot_number).dedup := by
      simpa using h
    rw [List.mem_dedup] at hm
    rcases List.mem_map.mp hm with ⟨p, hp, hsp⟩
    have hf := List.mem_filter.mp hp
    exact ⟨p, hf.1, Option.isNone_iff_eq_none.mp hf.2, hsp⟩
  · rintro ⟨p, hp, hdep, hsp⟩
    have hm : m ∈ (db.parkings.filter (fun p => p.departure_time.isNone)).map
        Parking.spot_number := by
      refine List.mem_map.mpr ⟨p, ?_, hsp⟩
      exact List.mem_filter.mpr ⟨hp, by simp [hdep]⟩
    have hm2 : m ∈ ((db.parkings.filter (fun p => p.departure_time.isNone)).map
        Parking.spot_number).dedup := List.mem_dedup.mpr hm
    simpa using hm2

/-- Claim C10 (confirmed): on any store whose active occupancies use spot
    numbers in `1..PARKING_SPOTS` (which the allocator guarantees, since it
    only ever hands out numbers from that scan), the free-spot search returns
    the smallest spot number in range occupied by no active occupancy, returns
    none exactly when every spot in range is occupied, and is a function of
    the occupancies only — the queue field is ignored entirely, so a spot
    held as the reserved spot of a notified queue entry is still returned. -/
theorem C10_theorem (db : DB)
    (hrange : ∀ p ∈ db.parkings, p.departure_time = none →
        1 ≤ p.spot_number ∧ p.spot_number ≤ PARKING_SPOTS) :
    (∀ s, get_free_parking_spot db = some s →
        1 ≤ s ∧ s ≤ PARKING_SPOTS ∧
        (∀ p ∈ db.parkings, p.departure_time = none → p.spot_number ≠ s) ∧
        (∀ m, 1 ≤ m → m < s →
            ∃ p ∈ db.parkings, p.departure_time = none ∧ p.spot_number = m)) ∧
    (get_free_parking_spot db = none →
        ∀ m, 1 ≤ m → m ≤ PARKING_SPOTS →
            ∃ p ∈ db.parkings, p.departure_time = none ∧ p.spot_number = m) ∧
    (∀ q : List QueueEntry, get_free_parking_spot { db with queue := q }
        = get_free_parking_spot db) := by
  refine ⟨?_, ?_, ?_⟩
  · intro s hs
    unfold get_free_parking_spot at hs
    by_cases hlen : PARKING_SPOTS ≤ (occupiedSpots db).length
    · rw [if_pos hlen] at hs
      cases hs
    · rw [if_neg hlen] at hs
      obtain ⟨h1, h2, h3, h4⟩ := firstFree_some (occupiedSpots db) PARKING_SPOTS 1 s hs
      refine ⟨h1, by omega, ?_, ?_⟩
      · intro p hp hdep hps
        have hc : (occupiedSpots db).contains s = true :=
          (occupiedSpots_contains db s).mpr ⟨p, hp, hdep, hps⟩
        rw [h3] at hc
        cases hc
      · intro m hm1 hm2
        exact (occupiedSpots_contains db m).mp (h4 m hm1 hm2)
  · intro hs m hm1 hm2
    unfold get_free_parking_spot at hs
    by_cases hlen : PARKING_SPOTS ≤ (occupiedSpots db).length
    · have hnd : (occupiedSpots db).Nodup := List.nodup_dedup _
      have hsub : ∀ x ∈ occupiedSpots db, 1 ≤ x ∧ x ≤ PARKING_SPOTS := by
        intro x hx
        have hc : (occupiedSpots db).contains x = true := by simpa using hx
        rcases (occupiedSpots_contains db x).mp hc with ⟨p, hp, hdep, hsp⟩
        rw [← hsp]
        exact hrange p hp hdep
      have hin := nodup_icc_full (occupiedSpots db) PARKING_SPOTS hnd hsub hlen m hm1 hm2
      have hc : (occupiedSpots db).contains m = true := by simpa using hin
      exact (occupiedSpots_contains db m).mp hc
    · rw [if_neg hlen] at hs
      have hc := firstFree_none (occupiedSpots db) PARKING_SPOTS 1 hs m hm1 (by omega)
      exact (occupiedSpots_contains db m).mp hc
  · intro q
    rfl

def c10wp1 : Parking :=
  { id := 1, user_id := 4, vehicle_number := "Q555QQ55", spot_number := 1,
    arrival_time := 0, departure_time := none, is_hitch := false, gate_number := none }

def c10wp2 : Parking :=
  { id := 2, user_id := 5, vehicle_number := "R666RR66", spot_number := 2,
    arrival_time := 1, departure_time := none, is_hitch := true, gate_number := none }

def c10wentry : QueueEntry := ⟨1, 9, "S777SS77", false, 2, some 3, QueueStatus.notified, some 3⟩

/-- Spots 1 and 2 occupied, and spot 3 reserved for a notified queue entry:
    the scan still returns 3. -/
def c10wdb : DB := ⟨[c10wp1, c10wp2], [], [c10wentry]⟩

/-- Witness for `C10_theorem`: the scan returns spot 3 (smallest free), even
    though a notified queue entry holds spot 3 as its reservation. -/
theorem C10_witness :
    1 ≤ 3 ∧ 3 ≤ PARKING_SPOTS ∧ c10wp1.spot_number ≠ 3 :=
  ⟨((C10_theorem c10wdb (by decide)).1 3 rfl).1,
   ((C10_theorem c10wdb (by decide)).1 3 rfl).2.1,
   ((C10_theorem c10wdb (by decide)).1 3 rfl).2.2.1 c10wp1 (by decide) rfl⟩

end Regparkovka
